import Mathlib

/-! Verification model of the task deployment pipeline of the
tds-llm-autodeploy-api repository (src/main.py and src/app_generator.py).
The two Python drafts of the pipeline are embedded as pure Lean functions:
outcomes of the external effects the code performs (git subprocesses, the
LLM call, HTTP posts, directory removal) are supplied by an environment
record, and each run yields an explicit trace of its observable events
(clones, cleanups, file writes, pushes, notifications). -/

/-- Attachment of an inbound task: declared name plus URL, where the URL
may be a data: URI (main.py line 75, app_generator.py lines 220-233). -/
structure Attachment where
  name : String
  url : String
deriving DecidableEq

/-- Inbound task request: the pydantic model IncomingTask of main.py
(lines 67-76) and the task_params dict of app_generator.py. -/
structure TaskRequest where
  email : String
  task : String
  round : Nat
  nonce : String
  brief : String
  checks : List String
  evaluationUrl : String
  attachments : List Attachment
  studentSecret : String
deriving DecidableEq

/-- One attempted git push: target branch and whether the -f flag was
passed (main.py line 259 and app_generator.py line 248). -/
structure GitPush where
  branch : String
  force : Bool
deriving DecidableEq

/-- Effect of one removal pass of the working path, modelling
safe_rmtree (main.py lines 93-105) and cleanup (app_generator.py
lines 61-73), whose bounded retries either remove an existing directory
or leave it in place after logging. First component: whether the path
still exists afterwards; second: number of physical removals performed. -/
def rmStep (pathEx rmOk : Bool) : Bool × Nat :=
  if pathEx && rmOk then (false, 1)
  else if pathEx then (true, 0)
  else (false, 0)

/-- Content written to a file in the working copy: text (generated file)
or binary (decoded attachment). -/
inductive FileData where
  | text (s : String)
  | bin (bytes : List Nat)
deriving DecidableEq

/-- Value of one character of the standard base64 alphabet, as used by
Python's base64.b64decode (app_generator.py line 226). -/
def b64Index (c : Char) : Option Nat :=
  if 'A' ≤ c ∧ c ≤ 'Z' then some (c.toNat - 65)
  else if 'a' ≤ c ∧ c ≤ 'z' then some (c.toNat - 97 + 26)
  else if '0' ≤ c ∧ c ≤ '9' then some (c.toNat - 48 + 52)
  else if c = '+' then some 62
  else if c = '/' then some 63
  else none

/-- Whether a character belongs to the base64 data alphabet. -/
def b64IsAlpha (c : Char) : Bool := (b64Index c).isSome

/-- Regroup a list of base64 sextet values into bytes; a final group of
two or three sextets yields one or two bytes, a dangling single sextet is
an error (Python raises binascii.Error there). -/
def b64Chunks : List Nat → Option (List Nat)
  | [] => some []
  | [_] => none
  | [a, b] => some [(a * 4 + b / 16) % 256]
  | [a, b, c] => some [(a * 4 + b / 16) % 256, (b % 16 * 16 + c / 4) % 256]
  | a :: b :: c :: d :: rest =>
    match b64Chunks rest with
    | some tail =>
      some ((a * 4 + b / 16) % 256 :: (b % 16 * 16 + c / 4) % 256 ::
            (c % 4 * 64 + d) % 256 :: tail)
    | none => none

/-- Model of Python base64.b64decode: characters outside the alphabet and
the padding are discarded, the padded length must be a multiple of four,
and the leading data characters are decoded into bytes. -/
def b64decode (s : String) : Option (List Nat) :=
  let kept := s.toList.filter (fun c => b64IsAlpha c || c == '=')
  let data := kept.takeWhile b64IsAlpha
  if kept.length % 4 == 0 then
    b64Chunks (data.filterMap b64Index)
  else none

/-- Whether a pattern occurs as a contiguous run inside a character list. -/
def charsContain (pat : List Char) : List Char → Bool
  | [] => pat.isEmpty
  | c :: rest => pat.isPrefixOf (c :: rest) || charsContain pat rest

/-- Substring test used to model Python's `in` on strings. -/
def strContains (s pat : String) : Bool := charsContain pat.toList s.toList

/-- Structured output of the mock LLM call of app_generator.py
(call_llm_api, lines 99-124). -/
structure LlmOutput where
  filename : String
  codeContent : String
  readmeContent : String
  licenseContent : String
deriving DecidableEq

/-- Embedding of app_generator.call_llm_api (lines 99-124): a
deterministic mock that picks the primary file from keywords of the
brief and builds README and LICENSE boilerplate. -/
def callLlmApi (brief : String) (taskName : String) : LlmOutput :=
  let lower := brief.toLower
  let pair :=
    if strContains lower "game" then
      ("index.html",
       "<html><head><title>LLM Game</title></head><body><h1>A Game Placeholder</h1><script>// Game logic here</script></body></html>")
    else if strContains lower "calculator" || strContains lower "sum" || strContains lower "csv" then
      ("solution.py",
       "# Python script for " ++ taskName ++ "\n\ndef solve(): return \x27Result\x27")
    else
      ("index.html",
       "<html><body><h1>LLM Solution for: " ++ taskName ++ "</h1><p>" ++ brief ++ "</p></body></html>")
  { filename := pair.1
    codeContent := pair.2
    readmeContent :=
      "# Solution for " ++ taskName ++ "\n\n## Task Brief\n" ++ brief ++
      "\n\n## Files\nPrimary file generated: " ++ pair.1
    licenseContent := "MIT License\n..." }

/-- Comma-separated segments of a character list, modelling Python's
str.split(',') as used on the data URI (app_generator.py line 225). -/
def commaSegments : List Char → List (List Char)
  | [] => [[]]
  | c :: rest =>
    if c = ',' then [] :: commaSegments rest
    else
      match commaSegments rest with
      | s :: ss => (c :: s) :: ss
      | [] => [[c]]

/-- Handling of one attachment by app_generator.process_task (lines
220-233): only URLs starting with "data:" are considered, the segment
after the first comma (split(',')[1]) is base64-decoded, and any failure
(missing comma giving an index error, bad padding) is caught, logged and
skipped, producing no write for that attachment. -/
def processAttachment (a : Attachment) : Option (String × FileData) :=
  if "data:".toList.isPrefixOf a.url.toList then
    match (commaSegments a.url.toList).get? 1 with
    | some payload =>
      match b64decode (String.mk payload) with
      | some bytes => some (a.name, FileData.bin bytes)
      | none => none
    | none => none
  else none

/-- Binary files materialized from a task's attachments at the working
copy root (app_generator.py lines 219-233); failed attachments are
skipped and later ones still processed. -/
def attachmentWrites (others : List Attachment) : List (String × FileData) :=
  others.filterMap processAttachment

/-! Model of main.py process_task (lines 160-299). -/

/-- Outcome of one main.py process_task run: the generation phase failed
(lines 197-201), the deployment phase failed (lines 264-268), or the run
reached the evaluator ping. -/
inductive MainOutcome where
  | genFailed
  | deployFailed
  | completed
deriving DecidableEq

/-- Outgoing payload of main.py (EvaluationPayload, lines 80-88). -/
structure MainPayload where
  email : String
  task : String
  round : Nat
  nonce : String
  repoUrl : String
  commitSha : String
  pagesUrl : String
  studentSecret : String
deriving DecidableEq

/-- Repository URL built by main.py (lines 36-38) from the configured
account and the fixed repository name. -/
def mainRepoUrl (username : String) : String :=
  "https://github.com/" ++ username ++ "/tds-llm-autodeploy-api"

/-- Pages URL built by main.py (line 38). -/
def mainPagesUrl (username : String) : String :=
  "https://" ++ username ++ ".github.io/tds-llm-autodeploy-api/"

/-- Evaluation payload of main.py process_task (lines 277-286). -/
def mainPayload (req : TaskRequest) (username sha : String) : MainPayload :=
  { email := req.email, task := req.task, round := req.round,
    nonce := req.nonce, repoUrl := mainRepoUrl username, commitSha := sha,
    pagesUrl := mainPagesUrl username, studentSecret := req.studentSecret }

/-- Environment of one main.py process_task run: the configured account
plus the outcomes of every external operation the code can perform. -/
structure MainEnv where
  username : String
  stalePath : Bool
  rmtreeOk : Bool
  cloneOk : Bool
  llmOk : Bool
  genFiles : List (String × String)
  writeOk : Bool
  commitOk : Bool
  revParse : Option String
  patOk : Bool
  pushOk : Bool
  notifyOk : Bool
deriving DecidableEq

/-- Trace of one main.py process_task run. clones counts git clone
invocations; prepareCleanups counts the stale-copy removal at the start
of the round-1 deployment phase (line 209); finalCleanups counts the
terminal safe_rmtree of the run (lines 199, 267, 271); removals counts
physical directory removals; created records whether this run brought
the working path into existence; pathExists is the state of the working
path when the run returns. -/
structure MainTrace where
  outcome : MainOutcome
  clones : Nat
  prepareCleanups : Nat
  finalCleanups : Nat
  removals : Nat
  created : Bool
  pathExists : Bool
  written : List (String × String)
  pushes : List GitPush
  notifications : List MainPayload
  notifySucceeded : Option Bool
deriving DecidableEq

/-- Generation-phase failure handler of main.py (lines 197-201): log the
error, remove the working path, and return without any notification. -/
def mainGenFail (env : MainEnv) (clones : Nat) (created pathEx : Bool) : MainTrace :=
  let r := rmStep pathEx env.rmtreeOk
  { outcome := MainOutcome.genFailed, clones := clones, prepareCleanups := 0,
    finalCleanups := 1, removals := r.2, created := created, pathExists := r.1,
    written := [], pushes := [], notifications := [], notifySucceeded := none }

/-- Deployment-phase failure handler of main.py (lines 264-268): log the
error, remove the working path, and return without any notification. -/
def mainDeployFail (env : MainEnv) (prepCount removals0 clones : Nat)
    (created pathEx : Bool) (written : List (String × String))
    (pushes : List GitPush) : MainTrace :=
  let r := rmStep pathEx env.rmtreeOk
  { outcome := MainOutcome.deployFailed, clones := clones,
    prepareCleanups := prepCount, finalCleanups := 1,
    removals := removals0 + r.2, created := created, pathExists := r.1,
    written := written, pushes := pushes, notifications := [],
    notifySucceeded := none }

/-- Embedding of main.py process_task (lines 160-299). Round 2 clones
first to read revision context (lines 170-176); a generation failure
cleans up and returns silently; the deployment phase prepares and clones
only on round 1 (lines 208-219), writes every generated file with
os.makedirs creating missing directories (lines 221-231), treats a
commit failure as fatal only on round 1 (lines 237-241), resolves the
commit hash with a fallback of "unknown" (line 244), requires the PAT
(lines 249-251), always pushes origin main without force (line 259),
then removes the working copy and finally pings the evaluator once, any
ping failure being caught and logged (lines 288-299). -/
def mainProcessTask (req : TaskRequest) (env : MainEnv) : MainTrace :=
  if req.round == 2 && !env.cloneOk then
    mainGenFail env 1 false env.stalePath
  else
    let clones0 : Nat := if req.round == 2 then 1 else 0
    let path0 : Bool := if req.round == 2 then true else env.stalePath
    let created0 : Bool := req.round == 2
    if !env.llmOk || env.genFiles.isEmpty then
      mainGenFail env clones0 created0 path0
    else
      let prep : Bool × Nat :=
        if req.round == 1 then rmStep env.stalePath env.rmtreeOk else (path0, 0)
      let prepCount : Nat := if req.round == 1 then 1 else 0
      if req.round == 1 && !env.cloneOk then
        mainDeployFail env prepCount prep.2 (clones0 + 1) false prep.1 [] []
      else
        let clones1 : Nat := clones0 + (if req.round == 1 then 1 else 0)
        let created1 : Bool := created0 || req.round == 1
        let path1 : Bool := if req.round == 1 then true else prep.1
        if !env.writeOk then
          mainDeployFail env prepCount prep.2 clones1 created1 path1 [] []
        else
          if !env.commitOk && req.round == 1 then
            mainDeployFail env prepCount prep.2 clones1 true true env.genFiles []
          else
            let sha : String := env.revParse.getD "unknown"
            if !env.patOk then
              mainDeployFail env prepCount prep.2 clones1 true true env.genFiles []
            else
              let pushes : List GitPush := [{ branch := "main", force := false }]
              if !env.pushOk then
                mainDeployFail env prepCount prep.2 clones1 true true env.genFiles pushes
              else
                let r := rmStep true env.rmtreeOk
                { outcome := MainOutcome.completed, clones := clones1,
                  prepareCleanups := prepCount, finalCleanups := 1,
                  removals := prep.2 + r.2, created := true, pathExists := r.1,
                  written := env.genFiles, pushes := pushes,
                  notifications := [mainPayload req env.username sha],
                  notifySucceeded := some env.notifyOk }

/-! Model of app_generator.py process_task (lines 128-275). -/

/-- GitHub account hardcoded in app_generator.py (line 13). -/
def appGenUsername : String := "Hrishikesh-200"

/-- Repository name hardcoded in app_generator.py (line 14). -/
def appGenRepoName : String := "tds-llm-autodeploy-api"

/-- Repository URL of app_generator.py (lines 15, 142). -/
def appGenRepoUrl : String :=
  "https://github.com/" ++ appGenUsername ++ "/" ++ appGenRepoName

/-- Pages URL of app_generator.py (lines 153, 270). -/
def appGenPagesUrl : String :=
  "https://" ++ appGenUsername ++ ".github.io/" ++ appGenRepoName ++ "/"

/-- Payload posted to the evaluation URL by app_generator.py: the
failure_response dict (lines 146-154) with commit_sha replaced by a
stage tag, or the success payload (lines 263-271) with the real hash. -/
structure AppGenPayload where
  email : String
  task : String
  round : Nat
  nonce : String
  repoUrl : String
  commitSha : String
  pagesUrl : String
deriving DecidableEq

/-- The payload app_generator.process_task sends for a given commit
field value (stage tag or commit hash). -/
def appGenPayloadWith (req : TaskRequest) (sha : String) : AppGenPayload :=
  { email := req.email, task := req.task, round := req.round,
    nonce := req.nonce, repoUrl := appGenRepoUrl, commitSha := sha,
    pagesUrl := appGenPagesUrl }

/-- Outcome of one app_generator.process_task run, one constructor per
return site. -/
inductive AppGenOutcome where
  | cloneFailed
  | llmFailed
  | branchFailed
  | writeFailed
  | commitPushFailed
  | completed
deriving DecidableEq

/-- Symbolic stage tag written into the commit field of the failure
payload at each failure return site of app_generator.process_task
(lines 164, 181, 198, 238, 256); the completed case keeps the initial
placeholder, which is never sent. -/
def appGenStageTag : AppGenOutcome → String
  | AppGenOutcome.cloneFailed => "GIT_CLONE_FAILED"
  | AppGenOutcome.llmFailed => "LLM_GEN_FAILED"
  | AppGenOutcome.branchFailed => "GIT_BRANCH_FAILED"
  | AppGenOutcome.writeFailed => "FILE_WRITE_FAILED"
  | AppGenOutcome.commitPushFailed => "GIT_PUSH_FAILED"
  | AppGenOutcome.completed => "ERROR"

/-- Branch targeted by app_generator.process_task (line 186): the
default branch on round 1, a round-specific branch otherwise. -/
def appGenTargetBranch (n : Nat) : String :=
  if n == 1 then "main" else "round-" ++ toString n

/-- Modelled from the spec: branch selection as worded in the
specification — "if round number is 1, use the default branch; for
round > 1, create and switch to a round-specific branch name",
deterministic as round-N. Stated for comparison with the source-derived
appGenTargetBranch. -/
def specBranchOfRound (n : Nat) : String :=
  if n = 1 then "main" else "round-" ++ toString n

/-- Generated files written by app_generator.process_task (lines
209-217): the primary LLM file, README.md and LICENSE. -/
def appGenLlmWrites (req : TaskRequest) : List (String × FileData) :=
  let out := callLlmApi req.brief req.task
  [(out.filename, FileData.text out.codeContent),
   ("README.md", FileData.text out.readmeContent),
   ("LICENSE", FileData.text out.licenseContent)]

/-- Environment of one app_generator.process_task run: outcomes of every
external operation its code performs. -/
structure AppGenEnv where
  stalePath : Bool
  rmOk : Bool
  cloneOk : Bool
  llmOk : Bool
  checkoutOk : Bool
  configOk : Bool
  writeOk : Bool
  addOk : Bool
  commitOk : Bool
  pushOk : Bool
  revParseOk : Bool
  sha : String
  notifyOk : Bool
deriving DecidableEq

/-- Trace of one app_generator.process_task run; prepareCleanups counts
the cleanup before cloning (line 158), finalCleanups the cleanup on a
failure handler or after the success notification (lines 180, 197, 237,
255, 274), notifyResults the outcome of each notify_evaluator call. -/
structure AppGenTrace where
  outcome : AppGenOutcome
  prepareCleanups : Nat
  finalCleanups : Nat
  removals : Nat
  created : Bool
  pathExists : Bool
  targetBranch : Option String
  written : List (String × FileData)
  pushes : List GitPush
  notifications : List AppGenPayload
  notifyResults : List Bool
deriving DecidableEq

/-- Failure handler shared by the post-clone failure sites of
app_generator.process_task: cleanup, tag the payload with the stage,
notify once, return. -/
def appGenFail (env : AppGenEnv) (req : TaskRequest) (out : AppGenOutcome)
    (prepRemovals : Nat) (tb : Option String)
    (written : List (String × FileData)) (pushes : List GitPush) : AppGenTrace :=
  let r := rmStep true env.rmOk
  { outcome := out, prepareCleanups := 1, finalCleanups := 1,
    removals := prepRemovals + r.2, created := true, pathExists := r.1,
    targetBranch := tb, written := written, pushes := pushes,
    notifications := [appGenPayloadWith req (appGenStageTag out)],
    notifyResults := [env.notifyOk] }

/-- Embedding of app_generator.process_task (lines 128-275): cleanup
then clone (a clone failure notifies GIT_CLONE_FAILED and returns with
no further cleanup, lines 156-166), LLM generation (lines 168-183),
branch selection and identity configuration (lines 185-200), writing
the generated files and decoding data-URI attachments (lines 204-240),
then add, commit, force-push and rev-parse in one guarded block whose
failure is reported as GIT_PUSH_FAILED (lines 242-258), and finally the
success notification followed by cleanup (lines 260-275). -/
def appGenProcessTask (req : TaskRequest) (env : AppGenEnv) : AppGenTrace :=
  let prep := rmStep env.stalePath env.rmOk
  if !env.cloneOk then
    { outcome := AppGenOutcome.cloneFailed, prepareCleanups := 1,
      finalCleanups := 0, removals := prep.2, created := false,
      pathExists := prep.1, targetBranch := none, written := [], pushes := [],
      notifications := [appGenPayloadWith req (appGenStageTag AppGenOutcome.cloneFailed)],
      notifyResults := [env.notifyOk] }
  else
    if !env.llmOk then
      appGenFail env req AppGenOutcome.llmFailed prep.2 none [] []
    else
      let tb := appGenTargetBranch req.round
      if !env.checkoutOk || !env.configOk then
        appGenFail env req AppGenOutcome.branchFailed prep.2 (some tb) [] []
      else
        if !env.writeOk then
          appGenFail env req AppGenOutcome.writeFailed prep.2 (some tb) [] []
        else
          let written := appGenLlmWrites req ++ attachmentWrites req.attachments
          if !env.addOk || !env.commitOk then
            appGenFail env req AppGenOutcome.commitPushFailed prep.2 (some tb) written []
          else
            let pushes : List GitPush := [{ branch := tb, force := true }]
            if !env.pushOk then
              appGenFail env req AppGenOutcome.commitPushFailed prep.2 (some tb) written pushes
            else
              if !env.revParseOk then
                appGenFail env req AppGenOutcome.commitPushFailed prep.2 (some tb) written pushes
              else
                let r := rmStep true env.rmOk
                { outcome := AppGenOutcome.completed, prepareCleanups := 1,
                  finalCleanups := 1, removals := prep.2 + r.2, created := true,
                  pathExists := r.1, targetBranch := some tb, written := written,
                  pushes := pushes,
                  notifications := [appGenPayloadWith req env.sha],
                  notifyResults := [env.notifyOk] }

/-! Models of the notifiers and of the HTTP intake handler. -/

/-- Observable behavior of one notification call: number of HTTP
attempts made, the backoff delays slept between attempts, and the
reported result. -/
structure NotifyTrace where
  attempts : Nat
  delays : List Nat
  success : Bool
deriving DecidableEq

/-- Embedding of app_generator.notify_evaluator (lines 75-86): a single
requests.post guarded by try/except, returning whether it succeeded; no
retry loop and no sleep exist in the code. The endpoint argument gives
the outcome each attempt would have. -/
def notifyEvaluator (endpoint : Nat → Bool) : NotifyTrace :=
  { attempts := 1, delays := [], success := endpoint 0 }

/-- Embedding of the evaluator ping of main.py process_task (lines
288-299): a single requests.post whose failure is caught and logged;
the comment admits backoff is "not fully implemented". -/
def mainPingEvaluator (endpoint : Nat → Bool) : NotifyTrace :=
  { attempts := 1, delays := [], success := endpoint 0 }

/-- HTTP response of the intake endpoint. -/
structure HttpResponse where
  status : Nat
  message : String
deriving DecidableEq

/-- Embedding of main.py handle_task_request (lines 304-322): the
handler only schedules process_task as a background task and returns
202 with a fixed message; a short student secret is merely logged, the
HTTPException is commented out, so every well-formed request is
accepted. The scheduled work is returned as a function of the
environment, reflecting that it runs after the response. -/
def handleTaskRequest (req : TaskRequest) : HttpResponse × (MainEnv → MainTrace) :=
  ({ status := 202, message := "Task accepted and processing in the background." },
   mainProcessTask req)

/-! Projections used to state that notification results cannot flow back
into the rest of the trace. -/

/-- Every field of a main.py trace except the notification result. -/
def MainTrace.core (t : MainTrace) :
    MainOutcome × Nat × Nat × Nat × Nat × Bool × Bool × List (String × String) ×
      List GitPush × List MainPayload :=
  (t.outcome, t.clones, t.prepareCleanups, t.finalCleanups, t.removals,
   t.created, t.pathExists, t.written, t.pushes, t.notifications)

/-- Every field of an app_generator trace except the notification
results. -/
def AppGenTrace.core (t : AppGenTrace) :
    AppGenOutcome × Nat × Nat × Nat × Bool × Bool × Option String ×
      List (String × FileData) × List GitPush × List AppGenPayload :=
  (t.outcome, t.prepareCleanups, t.finalCleanups, t.removals, t.created,
   t.pathExists, t.targetBranch, t.written, t.pushes, t.notifications)

/-! Concrete sample inputs used by witnesses and counterexamples. -/

/-- A well-formed sample request. -/
def baseReq : TaskRequest :=
  { email := "student@example.com", task := "demo1", round := 1,
    nonce := "nonce-1", brief := "simple html page", checks := [],
    evaluationUrl := "http://evaluator.example/cb", attachments := [],
    studentSecret := "secret-1234567890" }

/-- An environment in which every external operation succeeds. -/
def okMainEnv : MainEnv :=
  { username := "user1", stalePath := false, rmtreeOk := true,
    cloneOk := true, llmOk := true,
    genFiles := [("index.html", "<html>hi</html>")], writeOk := true,
    commitOk := true, revParse := some "abc123", patOk := true,
    pushOk := true, notifyOk := true }

/-- An app_generator environment in which every external operation
succeeds. -/
def okAppGenEnv : AppGenEnv :=
  { stalePath := false, rmOk := true, cloneOk := true, llmOk := true,
    checkoutOk := true, configOk := true, writeOk := true, addOk := true,
    commitOk := true, pushOk := true, revParseOk := true,
    sha := "deadbeef", notifyOk := true }

/-- A data-URI attachment carrying the PNG signature. -/
def logoAttachment : Attachment :=
  { name := "logo.png", url := "data:image/png;base64,iVBORw0KGgo=" }

/-- A malformed data-URI attachment with no comma-separated payload. -/
def badAttachment : Attachment :=
  { name := "broken.bin", url := "data:nopayload" }

/-- Request carrying one decodable and one malformed attachment. -/
def c8Req : TaskRequest :=
  { baseReq with attachments := [logoAttachment, badAttachment] }

/-- The same main.py environment with the evaluator's answer replaced;
used to state that the notification outcome influences nothing else. -/
def MainEnv.withNotify (em : MainEnv) (b : Bool) : MainEnv :=
  { username := em.username, stalePath := em.stalePath, rmtreeOk := em.rmtreeOk,
    cloneOk := em.cloneOk, llmOk := em.llmOk, genFiles := em.genFiles,
    writeOk := em.writeOk, commitOk := em.commitOk, revParse := em.revParse,
    patOk := em.patOk, pushOk := em.pushOk, notifyOk := b }

/-- The same app_generator environment with the evaluator's answer
replaced. -/
def AppGenEnv.withNotify (ea : AppGenEnv) (b : Bool) : AppGenEnv :=
  { stalePath := ea.stalePath, rmOk := ea.rmOk, cloneOk := ea.cloneOk,
    llmOk := ea.llmOk, checkoutOk := ea.checkoutOk, configOk := ea.configOk,
    writeOk := ea.writeOk, addOk := ea.addOk, commitOk := ea.commitOk,
    pushOk := ea.pushOk, revParseOk := ea.revParseOk, sha := ea.sha,
    notifyOk := b }

/-! Helper lemmas shared by the claim theorems. -/

/-- Natural-number disequality transported to the boolean equality test. -/
lemma beqFalseOfNe {x y : Nat} (h : x ≠ y) : (x == y) = false := by
  rw [beq_eq_false_iff_ne]; exact h

/-- The terminal cleanup of main.py process_task runs exactly once on
every execution path. -/
lemma main_finalCleanups (req : TaskRequest) (em : MainEnv) :
    (mainProcessTask req em).finalCleanups = 1 := by
  obtain ⟨u, s, r, c, l, g, w, k, v, p, q, n⟩ := em
  obtain ⟨e, t, R, no, br, ch, ev, att, se⟩ := req
  have e2 : ∀ x : Nat, (x + 3 == 2) = false := fun x => beqFalseOfNe (by omega)
  have e1 : ∀ x : Nat, (x + 3 == 1) = false := fun x => beqFalseOfNe (by omega)
  rcases R with _ | _ | _ | m <;>
    simp [mainProcessTask, e1, e2] <;>
    split_ifs <;>
    simp_all [mainGenFail, mainDeployFail, rmStep]

/-- Starting from a clean path with effective removal, a main.py run
ends with the path gone and removed the working copy it created exactly
once (no removal happens when none was created). -/
lemma main_clean (req : TaskRequest) (em : MainEnv)
    (hs : em.stalePath = false) (hr : em.rmtreeOk = true) :
    (mainProcessTask req em).pathExists = false ∧
    (mainProcessTask req em).removals
      = (if (mainProcessTask req em).created then 1 else 0) := by
  obtain ⟨u, s, r, c, l, g, w, k, v, p, q, n⟩ := em
  obtain ⟨e, t, R, no, br, ch, ev, att, se⟩ := req
  subst hs; subst hr
  have e2 : ∀ x : Nat, (x + 3 == 2) = false := fun x => beqFalseOfNe (by omega)
  have e1 : ∀ x : Nat, (x + 3 == 1) = false := fun x => beqFalseOfNe (by omega)
  rcases R with _ | _ | _ | m <;>
    simp [mainProcessTask, e1, e2] <;>
    split_ifs <;>
    simp_all [mainGenFail, mainDeployFail, rmStep]

/-- Starting from a clean path with effective removal, an
app_generator.py run ends with the path gone and removed the working
copy it created exactly once. -/
lemma appGen_clean (req : TaskRequest) (ea : AppGenEnv)
    (has : ea.stalePath = false) (har : ea.rmOk = true) :
    (appGenProcessTask req ea).pathExists = false ∧
    (appGenProcessTask req ea).removals
      = (if (appGenProcessTask req ea).created then 1 else 0) := by
  simp only [appGenProcessTask]
  split_ifs <;> simp_all [appGenFail, rmStep]

/-! Claims. -/

/-- Claim C1: for every pipeline run of a Task, the working copy is
cleaned up exactly once before the run terminates regardless of which
stage failed, and the working path does not exist after the run. For
main.py the terminal safe_rmtree (lines 199, 267, 271) executes exactly
once on every path; and for both pipelines, when a run starts with no
stale directory and removal succeeds, the path is gone at the end and
the working copy the run created was physically removed exactly once
(no removal happens when no directory was ever created, e.g. a round-1
generation-only failure). The round-1 stale-copy removal of main.py
line 209 is the Prepare step of the deployer and is counted apart. -/
theorem c1_working_copy_cleanup (req : TaskRequest) (em : MainEnv) (ea : AppGenEnv)
    (hs : em.stalePath = false) (hr : em.rmtreeOk = true)
    (has : ea.stalePath = false) (har : ea.rmOk = true) :
    (mainProcessTask req em).finalCleanups = 1 ∧
    (mainProcessTask req em).pathExists = false ∧
    (mainProcessTask req em).removals
      = (if (mainProcessTask req em).created then 1 else 0) ∧
    (appGenProcessTask req ea).pathExists = false ∧
    (appGenProcessTask req ea).removals
      = (if (appGenProcessTask req ea).created then 1 else 0) :=
  ⟨main_finalCleanups req em, (main_clean req em hs hr).1, (main_clean req em hs hr).2,
   (appGen_clean req ea has har).1, (appGen_clean req ea has har).2⟩

/-- Witness for C1 at a concrete request and all-success environments. -/
theorem c1_witness :
    (mainProcessTask baseReq okMainEnv).finalCleanups = 1 ∧
    (mainProcessTask baseReq okMainEnv).pathExists = false ∧
    (appGenProcessTask baseReq okAppGenEnv).pathExists = false := by
  have h := c1_working_copy_cleanup baseReq okMainEnv okAppGenEnv rfl rfl rfl rfl
  exact ⟨h.1, h.2.1, h.2.2.2.1⟩

/-- Counterexample to claim C2: in main.py's pipeline (the one the HTTP
endpoint schedules), a generation failure returns after cleanup without
sending any DeploymentResult at all (lines 197-201 only log and return),
so no payload with a stage tag reaches the evaluation URL. -/
theorem c2_counterexample_main_silent_failure :
    (mainProcessTask baseReq { okMainEnv with llmOk := false }).outcome
      = MainOutcome.genFailed ∧
    (mainProcessTask baseReq { okMainEnv with llmOk := false }).notifications.length = 0 ∧
    (mainProcessTask baseReq { okMainEnv with llmOk := false }).notifications.length ≠ 1 := by
  refine ⟨rfl, rfl, by decide⟩

/-- Claim C2 (amended): in app_generator.process_task, every fatal
failure before a commit identifier exists sends exactly one
DeploymentResult to the evaluation URL, whose commit field is the
symbolic stage tag of the failed stage (GIT_CLONE_FAILED, LLM_GEN_FAILED,
GIT_BRANCH_FAILED, FILE_WRITE_FAILED, GIT_PUSH_FAILED) and never empty;
main.py's pipeline instead sends nothing on fatal failure (see the
counterexample). -/
theorem c2_appgen_failure_notification (req : TaskRequest) (env : AppGenEnv)
    (h : (appGenProcessTask req env).outcome ≠ AppGenOutcome.completed) :
    (appGenProcessTask req env).notifications
      = [appGenPayloadWith req (appGenStageTag (appGenProcessTask req env).outcome)] ∧
    (appGenProcessTask req env).notifications.length = 1 ∧
    appGenStageTag (appGenProcessTask req env).outcome ≠ "" := by
  simp only [appGenProcessTask] at *
  split_ifs at * <;> simp_all [appGenFail, appGenStageTag]

/-- Witness for C2 (amended) at a concrete clone failure. -/
theorem c2_witness :
    (appGenProcessTask baseReq { okAppGenEnv with cloneOk := false }).notifications
      = [appGenPayloadWith baseReq "GIT_CLONE_FAILED"] := by
  have h := c2_appgen_failure_notification baseReq
    { okAppGenEnv with cloneOk := false } (by decide)
  rw [h.1]
  rfl

/-- Counterexample to claim C3: against an endpoint that fails the first
two attempts and succeeds on the third, the notifier makes one single
attempt (and sleeps no backoff delays), not three. -/
theorem c3_counterexample_single_attempt :
    (notifyEvaluator (fun n => decide (2 ≤ n))).attempts = 1 ∧
    (notifyEvaluator (fun n => decide (2 ≤ n))).attempts ≠ 3 ∧
    (notifyEvaluator (fun n => decide (2 ≤ n))).delays = [] ∧
    (notifyEvaluator (fun n => decide (2 ≤ n))).success = false := by
  refine ⟨rfl, by decide, rfl, by decide⟩

/-- Claim C3 (amended): both notifiers — app_generator.notify_evaluator
and the evaluator ping of main.py — make exactly one attempt with no
retries and no backoff delays, reporting the first attempt's outcome,
whatever the endpoint's behavior. -/
theorem c3_notify_single_attempt (endpoint : Nat → Bool) :
    (notifyEvaluator endpoint).attempts = 1 ∧
    (notifyEvaluator endpoint).delays = [] ∧
    (notifyEvaluator endpoint).success = endpoint 0 ∧
    (mainPingEvaluator endpoint).attempts = 1 ∧
    (mainPingEvaluator endpoint).delays = [] ∧
    (mainPingEvaluator endpoint).success = endpoint 0 :=
  ⟨rfl, rfl, rfl, rfl, rfl, rfl⟩

/-- Counterexample to claim C4: a successful round-2 run of main.py's
pipeline pushes the default branch "main" (line 259), not the
round-specific branch the claim requires for round > 1. -/
theorem c4_counterexample_main_branch :
    (mainProcessTask { baseReq with round := 2 } okMainEnv).outcome
      = MainOutcome.completed ∧
    (mainProcessTask { baseReq with round := 2 } okMainEnv).pushes
      = [{ branch := "main", force := false }] ∧
    specBranchOfRound 2 = "round-2" ∧ ("main" : String) ≠ "round-2" := by
  refine ⟨rfl, rfl, by decide, by decide⟩

/-- Claim C4 (amended): in app_generator.process_task the targeted
branch is the deterministic pure function of the round number that the
spec describes (default branch for round 1, round-N for N > 1), and
every push of that pipeline targets exactly that branch; main.py's
pipeline instead always pushes main (see the counterexample). -/
theorem c4_appgen_branch_policy :
    (∀ n : Nat, appGenTargetBranch n = specBranchOfRound n) ∧
    (∀ (req : TaskRequest) (env : AppGenEnv),
      ((appGenProcessTask req env).pushes.all
        (fun p => p.branch == appGenTargetBranch req.round)) = true) := by
  constructor
  · intro n
    by_cases h : n = 1 <;> simp [appGenTargetBranch, specBranchOfRound, h]
  · intro req env
    simp only [appGenProcessTask]
    split_ifs <;> simp [appGenFail]

/-- Claim C5: a notification failure never propagates back into the
pipeline: every trace field except the recorded notification result —
outcome, cleanups, removals, path state, written files, pushes, and the
payloads themselves — is identical whether the evaluator accepts or
rejects the notification, in both pipelines; cleanup is not skipped and
a deployment success or failure is reported unchanged. -/
theorem c5_notify_non_propagating (req : TaskRequest) (em : MainEnv) (b1 b2 : Bool)
    (ea : AppGenEnv) (d1 d2 : Bool) :
    (mainProcessTask req (em.withNotify b1)).core
      = (mainProcessTask req (em.withNotify b2)).core ∧
    (appGenProcessTask req (ea.withNotify d1)).core
      = (appGenProcessTask req (ea.withNotify d2)).core := by
  constructor
  · obtain ⟨u, s, r, c, l, g, w, k, v, p, q, n⟩ := em
    obtain ⟨e, t, R, no, br, ch, ev, att, se⟩ := req
    have e2 : ∀ x : Nat, (x + 3 == 2) = false := fun x => beqFalseOfNe (by omega)
    have e1 : ∀ x : Nat, (x + 3 == 1) = false := fun x => beqFalseOfNe (by omega)
    rcases R with _ | _ | _ | m <;>
      simp [MainEnv.withNotify, mainProcessTask, MainTrace.core, e1, e2] <;>
      (try split_ifs) <;>
      simp_all [mainGenFail, mainDeployFail, rmStep]
  · obtain ⟨s, r, c, l, ck, cf, w, a, cm, pu, rp, sh, n⟩ := ea
    simp only [AppGenEnv.withNotify, appGenProcessTask, AppGenTrace.core]
    split_ifs <;> rfl

/-- Counterexample to claim C6: in app_generator.process_task a commit
failure on a revision round (round 2) is fatal — the guarded block of
lines 242-258 aborts before the push, reports GIT_PUSH_FAILED and
returns — instead of proceeding to a no-op push as the claim states. -/
theorem c6_counterexample_appgen_commit_fatal :
    (appGenProcessTask { baseReq with round := 2 }
        { okAppGenEnv with commitOk := false }).outcome
      = AppGenOutcome.commitPushFailed ∧
    (appGenProcessTask { baseReq with round := 2 }
        { okAppGenEnv with commitOk := false }).pushes = [] ∧
    (appGenProcessTask { baseReq with round := 2 }
        { okAppGenEnv with commitOk := false }).notifications
      = [appGenPayloadWith { baseReq with round := 2 } "GIT_PUSH_FAILED"] := by
  refine ⟨rfl, rfl, rfl⟩

/-- Claim C6 (amended): in main.py's process_task (lines 237-241) a
commit failure is fatal on round 1 — the deployment phase aborts with no
push — while on any round > 1 the pipeline proceeds to the push step;
in app_generator.process_task a commit failure is fatal on every round
and is reported as GIT_PUSH_FAILED without attempting the push (see the
counterexample). -/
theorem c6_main_commit_round_policy (req : TaskRequest) (env : MainEnv)
    (hl : env.llmOk = true) (hg : env.genFiles.isEmpty = false)
    (hc : env.cloneOk = true) (hw : env.writeOk = true)
    (hcm : env.commitOk = false) (hp : env.patOk = true) :
    (req.round = 1 →
      (mainProcessTask req env).outcome = MainOutcome.deployFailed ∧
      (mainProcessTask req env).pushes = []) ∧
    (1 < req.round →
      (mainProcessTask req env).pushes = [{ branch := "main", force := false }]) := by
  obtain ⟨u, s, r, c, l, g, w, k, v, p, q, n⟩ := env
  subst hl; subst hc; subst hw; subst hcm; subst hp
  constructor
  · intro h1
    have hb1 : (req.round == 1) = true := by rw [beq_iff_eq]; exact h1
    have hb2 : (req.round == 2) = false := beqFalseOfNe (by omega)
    simp [mainProcessTask, mainDeployFail, mainGenFail, rmStep, hb1, hb2, hg]
  · intro h2
    have hb1 : (req.round == 1) = false := beqFalseOfNe (by omega)
    simp [mainProcessTask, hb1, hg]
    (try split_ifs) <;> simp_all [mainDeployFail, mainGenFail, rmStep]

/-- Witness for C6 (amended): a concrete round-2 commit failure in
main.py still attempts the push of main. -/
theorem c6_witness :
    (mainProcessTask { baseReq with round := 2 }
        { okMainEnv with commitOk := false }).pushes
      = [{ branch := "main", force := false }] := by
  have h := c6_main_commit_round_policy { baseReq with round := 2 }
    { okMainEnv with commitOk := false } rfl rfl rfl rfl rfl rfl
  exact h.2 (by decide)

/-- Counterexample to claim C7: the push of a successful main.py run is
git push origin main without the force flag (line 259), so not every
push of the program has force-push semantics. -/
theorem c7_counterexample_main_unforced_push :
    (mainProcessTask baseReq okMainEnv).outcome = MainOutcome.completed ∧
    (mainProcessTask baseReq okMainEnv).pushes
      = [{ branch := "main", force := false }] ∧
    ((mainProcessTask baseReq okMainEnv).pushes.all (fun p => p.force)) = false := by
  refine ⟨rfl, rfl, by decide⟩

/-- Claim C7 (amended): every push performed by app_generator's deployer
carries the force flag (git push -f origin, line 248), and a completed
run pushes exactly the round-derived target branch with force;
main.py's deployer instead pushes main without force (see the
counterexample). -/
theorem c7_appgen_force_push (req : TaskRequest) (env : AppGenEnv) :
    ((appGenProcessTask req env).pushes.all (fun p => p.force)) = true ∧
    ((appGenProcessTask req env).outcome = AppGenOutcome.completed →
      (appGenProcessTask req env).pushes
        = [{ branch := appGenTargetBranch req.round, force := true }]) := by
  simp only [appGenProcessTask]
  split_ifs <;> simp_all [appGenFail]

/-- Witness for C7 (amended) at a concrete successful run. -/
theorem c7_witness :
    (appGenProcessTask baseReq okAppGenEnv).pushes
      = [{ branch := appGenTargetBranch baseReq.round, force := true }] := by
  have h := c7_appgen_force_push baseReq okAppGenEnv
  exact h.2 (by decide)

/-- Counterexample to claim C8: main.py's materialization (lines
221-231) writes only the generated text files and never decodes or
writes attachments — a successful run with a data-URI attachment named
logo.png produces no logo.png in the working copy. -/
theorem c8_counterexample_main_drops_attachments :
    (mainProcessTask c8Req okMainEnv).outcome = MainOutcome.completed ∧
    (mainProcessTask c8Req okMainEnv).written = okMainEnv.genFiles ∧
    (((mainProcessTask c8Req okMainEnv).written.map Prod.fst).contains "logo.png")
      = false := by
  refine ⟨rfl, rfl, by decide⟩

/-- Claim C8 (amended): in app_generator.process_task, a run that
reaches materialization writes every entry of the generated file set
plus one binary file per decodable data-URI attachment, written under
the attachment's declared name at the working-copy root; an attachment
whose payload cannot be isolated or decoded is skipped without aborting
materialization (the remaining attachments are still written and the
pipeline proceeds); main.py's pipeline ignores attachments entirely
(see the counterexample). -/
theorem c8_appgen_materialization (req : TaskRequest) (env : AppGenEnv)
    (hc : env.cloneOk = true) (hl : env.llmOk = true)
    (hk : env.checkoutOk = true) (hcf : env.configOk = true)
    (hw : env.writeOk = true) :
    ((appGenProcessTask req env).written
      = appGenLlmWrites req ++ attachmentWrites req.attachments) ∧
    (∀ a ∈ req.attachments, ∀ w, processAttachment a = some w →
      w ∈ (appGenProcessTask req env).written) ∧
    (∀ (a : Attachment) (rest : List Attachment), processAttachment a = none →
      attachmentWrites (a :: rest) = attachmentWrites rest) := by
  have hwr : (appGenProcessTask req env).written
      = appGenLlmWrites req ++ attachmentWrites req.attachments := by
    simp [appGenProcessTask, hc, hl, hk, hcf, hw]
    (try split_ifs) <;> simp_all [appGenFail]
  refine ⟨hwr, ?_, ?_⟩
  · intro a ha w hpa
    rw [hwr]
    refine List.mem_append_right _ ?_
    simp only [attachmentWrites, List.mem_filterMap]
    exact ⟨a, ha, hpa⟩
  · intro a rest hnone
    simp [attachmentWrites, List.filterMap_cons, hnone]

/-- Witness for C8 (amended): the PNG-signature attachment is decoded
and written as binary logo.png, while the malformed attachment yields
no write. -/
theorem c8_witness :
    ("logo.png", FileData.bin [137, 80, 78, 71, 13, 10, 26, 10])
      ∈ (appGenProcessTask c8Req okAppGenEnv).written ∧
    processAttachment badAttachment = none := by
  have h := c8_appgen_materialization c8Req okAppGenEnv rfl rfl rfl rfl rfl
  refine ⟨h.2.1 logoAttachment (by decide) _ (by decide), by decide⟩

/-- Claim C9: the intake handler returns the 202 acceptance response
with its fixed message for every well-formed request — including one
with a short student secret, which is only logged — before and
independently of the pipeline, which it schedules as background work;
success/failure detail travels only through the evaluation callback. -/
theorem c9_immediate_acceptance (req : TaskRequest) (env : MainEnv) :
    (handleTaskRequest req).1.status = 202 ∧
    (handleTaskRequest req).1.message
      = "Task accepted and processing in the background." ∧
    (handleTaskRequest req).2 env = mainProcessTask req env :=
  ⟨rfl, rfl, rfl⟩

/-- Claim C10: in main.py's process_task a clone happens only on round 1
(deployment phase, line 212) or round 2 (before generation, line 172),
and the stale-copy removal before writing only on round 1 (line 209);
for every round ≥ 3 no clone and no prepare-cleanup occur, and
materialization writes the generated files relative to whatever
directory state the local repository path already has. -/
theorem c10_round_three_no_clone (req : TaskRequest) (env : MainEnv)
    (h : 3 ≤ req.round) :
    (mainProcessTask req env).clones = 0 ∧
    (mainProcessTask req env).prepareCleanups = 0 ∧
    (env.llmOk = true → env.genFiles.isEmpty = false → env.writeOk = true →
      (mainProcessTask req env).written = env.genFiles) := by
  have hb2 : (req.round == 2) = false := beqFalseOfNe (by omega)
  have hb1 : (req.round == 1) = false := beqFalseOfNe (by omega)
  refine ⟨?_, ?_, ?_⟩
  · simp [mainProcessTask, hb1, hb2]
    (try split_ifs) <;> simp_all [mainGenFail, mainDeployFail, rmStep]
  · simp [mainProcessTask, hb1, hb2]
    (try split_ifs) <;> simp_all [mainGenFail, mainDeployFail, rmStep]
  · intro hl hg hw
    simp [mainProcessTask, hb1, hb2, hl, hg, hw]
    (try split_ifs) <;> simp_all [mainGenFail, mainDeployFail, rmStep]

/-- Witness for C10 at a concrete round-3 run. -/
theorem c10_witness :
    (mainProcessTask { baseReq with round := 3 } okMainEnv).clones = 0 ∧
    (mainProcessTask { baseReq with round := 3 } okMainEnv).written
      = okMainEnv.genFiles := by
  have h := c10_round_three_no_clone { baseReq with round := 3 } okMainEnv (by decide)
  exact ⟨h.1, h.2.2 rfl rfl rfl⟩
